import Mathlib

/-!
Formal model of the whatnut lifecycle cost-effectiveness engine.

This file gives a shallow embedding, over the real numbers, of the numeric
core of the repository: the age-indexed mortality / quality / cause-mix
tables and their interpolation (src/whatnut/lifecycle.py and
src/whatnut/lifecycle_pathways.py), the single-hazard-ratio lifecycle engine
(`LifecycleCEA.run`), the pathway engine (`PathwayLifecycleCEA.run`), the
per-draw parameter sampling of the two Monte Carlo loops (modelled against an
abstract stream of sampler-call outputs), and the validated simulation
parameter object (src/whatnut/simulation.py, `SimulationParams.__post_init__`).

Python floats are modelled as real numbers; numpy arrays indexed by year
offset are modelled as functions from the offset to the value (the survival
arrays of the code are a cumulative product shifted by one year, which is
written here directly as a product over the strictly earlier offsets).
Python's `float('inf')` result for a degenerate cost-effectiveness ratio is
modelled with `EReal` and its top element.
-/

namespace Whatnut

/-- US Life Table 2021 mortality rates by age (dict `US_MORTALITY_RATES`,
lifecycle.py lines 23-30), as a function from the anchor age to qx. -/
noncomputable def US_MORTALITY_RATES (a : ℤ) : ℝ :=
  if a = 0 then 0.00530 else if a = 1 then 0.00038 else if a = 5 then 0.00012
  else if a = 10 then 0.00010 else if a = 15 then 0.00041 else if a = 20 then 0.00097
  else if a = 25 then 0.00121 else if a = 30 then 0.00131 else if a = 35 then 0.00153
  else if a = 40 then 0.00193 else if a = 45 then 0.00282 else if a = 50 then 0.00421
  else if a = 55 then 0.00628 else if a = 60 then 0.00931 else if a = 65 then 0.01348
  else if a = 70 then 0.02006 else if a = 75 then 0.03126 else if a = 80 then 0.05082
  else if a = 85 then 0.08453 else if a = 90 then 0.14022 else if a = 95 then 0.21890
  else 0.32000

/-- Largest table age at most `age`, for an interior query age
(`max(a for a in ages if a <= age)` over the sorted keys of
`US_MORTALITY_RATES`; only consulted by `interpolate_mortality` for
`0 < age < 100`). -/
def mortalityAnchorLo (age : ℤ) : ℤ :=
  if age < 1 then 0 else if age < 5 then 1 else if age < 10 then 5
  else if age < 15 then 10 else if age < 20 then 15 else if age < 25 then 20
  else if age < 30 then 25 else if age < 35 then 30 else if age < 40 then 35
  else if age < 45 then 40 else if age < 50 then 45 else if age < 55 then 50
  else if age < 60 then 55 else if age < 65 then 60 else if age < 70 then 65
  else if age < 75 then 70 else if age < 80 then 75 else if age < 85 then 80
  else if age < 90 then 85 else if age < 95 then 90 else 95

/-- Smallest table age strictly above `age`, for an interior query age
(`min(a for a in ages if a > age)`). -/
def mortalityAnchorHi (age : ℤ) : ℤ :=
  if age < 1 then 1 else if age < 5 then 5 else if age < 10 then 10
  else if age < 15 then 15 else if age < 20 then 20 else if age < 25 then 25
  else if age < 30 then 30 else if age < 35 then 35 else if age < 40 then 40
  else if age < 45 then 45 else if age < 50 then 50 else if age < 55 then 55
  else if age < 60 then 60 else if age < 65 then 65 else if age < 70 then 70
  else if age < 75 then 75 else if age < 80 then 80 else if age < 85 then 85
  else if age < 90 then 90 else if age < 95 then 95 else 100

/-- Interior-bracket interpolation of `interpolate_mortality` (lifecycle.py
lines 46-59): linear interpolation in log space of the two anchor rates,
falling back to the arithmetic mean when an anchor rate is nonpositive. -/
noncomputable def mortalityInterp (l u a : ℤ) : ℝ :=
  let vl := US_MORTALITY_RATES l
  let vu := US_MORTALITY_RATES u
  if vl ≤ 0 ∨ vu ≤ 0 then (vl + vu) / 2
  else Real.exp (Real.log vl +
    (((a - l : ℤ) : ℝ) / ((u - l : ℤ) : ℝ)) * (Real.log vu - Real.log vl))

/-- Mortality rate for any age (`interpolate_mortality`, lifecycle.py lines
33-59): clamp below the first anchor, geometric 1.1-per-year extrapolation
capped at 1 above the last anchor, log-space interpolation between. -/
noncomputable def interpolate_mortality (age : ℤ) : ℝ :=
  if age ≤ 0 then US_MORTALITY_RATES 0
  else if 100 ≤ age then
    min 1 (US_MORTALITY_RATES 100 * (1.1 : ℝ) ^ (age - 100).toNat)
  else mortalityInterp (mortalityAnchorLo age) (mortalityAnchorHi age) age

/-- Dense mortality curve from `start_age` to `max_age` inclusive
(`get_mortality_curve`, lifecycle.py lines 62-64). -/
noncomputable def get_mortality_curve (start_age max_age : ℤ) : List ℝ :=
  (List.range (max_age + 1 - start_age).toNat).map
    (fun t : ℕ => interpolate_mortality (start_age + (t : ℤ)))

/-- Age-specific quality-of-life weights (dict `AGE_QUALITY_WEIGHTS`,
lifecycle.py lines 71-77). -/
noncomputable def AGE_QUALITY_WEIGHTS (a : ℤ) : ℝ :=
  if a = 20 then 0.94 else if a = 25 then 0.93 else if a = 30 then 0.92
  else if a = 35 then 0.91 else if a = 40 then 0.89 else if a = 45 then 0.87
  else if a = 50 then 0.85 else if a = 55 then 0.83 else if a = 60 then 0.80
  else if a = 65 then 0.78 else if a = 70 then 0.75 else if a = 75 then 0.72
  else if a = 80 then 0.68 else if a = 85 then 0.62 else if a = 90 then 0.55
  else if a = 95 then 0.48 else 0.40

/-- Largest quality-table age at most `age`, for interior query ages. -/
def qualityAnchorLo (age : ℤ) : ℤ :=
  if age < 25 then 20 else if age < 30 then 25 else if age < 35 then 30
  else if age < 40 then 35 else if age < 45 then 40 else if age < 50 then 45
  else if age < 55 then 50 else if age < 60 then 55 else if age < 65 then 60
  else if age < 70 then 65 else if age < 75 then 70 else if age < 80 then 75
  else if age < 85 then 80 else if age < 90 then 85 else if age < 95 then 90
  else 95

/-- Smallest quality-table age strictly above `age`, for interior query ages. -/
def qualityAnchorHi (age : ℤ) : ℤ :=
  if age < 25 then 25 else if age < 30 then 30 else if age < 35 then 35
  else if age < 40 then 40 else if age < 45 then 45 else if age < 50 then 50
  else if age < 55 then 55 else if age < 60 then 60 else if age < 65 then 65
  else if age < 70 then 70 else if age < 75 then 75 else if age < 80 then 80
  else if age < 85 then 85 else if age < 90 then 90 else if age < 95 then 95
  else 100

/-- Quality weight for any age (`get_quality_weight`, lifecycle.py lines
80-96): clamp below 20, linear decay floored at 0.3 above 100, linear
interpolation between anchors. -/
noncomputable def get_quality_weight (age : ℤ) : ℝ :=
  if age ≤ 20 then AGE_QUALITY_WEIGHTS 20
  else if 100 ≤ age then
    max 0.3 (AGE_QUALITY_WEIGHTS 100 - 0.02 * ((age - 100 : ℤ) : ℝ))
  else
    let l := qualityAnchorLo age
    let u := qualityAnchorHi age
    AGE_QUALITY_WEIGHTS l +
      (((age - l : ℤ) : ℝ) / ((u - l : ℤ) : ℝ)) *
        (AGE_QUALITY_WEIGHTS u - AGE_QUALITY_WEIGHTS l)

/-- Dense quality curve (`get_quality_curve`, lifecycle.py lines 99-101). -/
noncomputable def get_quality_curve (start_age max_age : ℤ) : List ℝ :=
  (List.range (max_age + 1 - start_age).toNat).map
    (fun t : ℕ => get_quality_weight (start_age + (t : ℤ)))

/-- Cause-of-death fractions (cvd, cancer, other) by anchor age (dict
`CAUSE_FRACTIONS_BY_AGE`, lifecycle_pathways.py lines 59-69). -/
noncomputable def CAUSE_FRACTIONS_BY_AGE (a : ℤ) : ℝ × ℝ × ℝ :=
  if a = 20 then (0.10, 0.05, 0.85) else if a = 30 then (0.12, 0.10, 0.78)
  else if a = 40 then (0.20, 0.25, 0.55) else if a = 50 then (0.25, 0.35, 0.40)
  else if a = 60 then (0.30, 0.35, 0.35) else if a = 70 then (0.35, 0.30, 0.35)
  else if a = 80 then (0.40, 0.20, 0.40) else if a = 90 then (0.45, 0.10, 0.45)
  else (0.50, 0.05, 0.45)

/-- Largest cause-table age at most `age`, for interior query ages. -/
def causeAnchorLo (age : ℤ) : ℤ :=
  if age < 30 then 20 else if age < 40 then 30 else if age < 50 then 40
  else if age < 60 then 50 else if age < 70 then 60 else if age < 80 then 70
  else if age < 90 then 80 else 90

/-- Smallest cause-table age strictly above `age`, for interior query ages. -/
def causeAnchorHi (age : ℤ) : ℤ :=
  if age < 30 then 30 else if age < 40 then 40 else if age < 50 then 50
  else if age < 60 then 60 else if age < 70 then 70 else if age < 80 then 80
  else if age < 90 then 90 else 100

/-- Componentwise linear interpolation of the two cause-fraction anchor rows
(lifecycle_pathways.py lines 84-92). -/
noncomputable def causeLerp (l u a : ℤ) : ℝ × ℝ × ℝ :=
  ((CAUSE_FRACTIONS_BY_AGE l).1 + ((a - l : ℤ) : ℝ) / ((u - l : ℤ) : ℝ) *
      ((CAUSE_FRACTIONS_BY_AGE u).1 - (CAUSE_FRACTIONS_BY_AGE l).1),
   (CAUSE_FRACTIONS_BY_AGE l).2.1 + ((a - l : ℤ) : ℝ) / ((u - l : ℤ) : ℝ) *
      ((CAUSE_FRACTIONS_BY_AGE u).2.1 - (CAUSE_FRACTIONS_BY_AGE l).2.1),
   (CAUSE_FRACTIONS_BY_AGE l).2.2 + ((a - l : ℤ) : ℝ) / ((u - l : ℤ) : ℝ) *
      ((CAUSE_FRACTIONS_BY_AGE u).2.2 - (CAUSE_FRACTIONS_BY_AGE l).2.2))

/-- Cause-of-death fractions for any age (`interpolate_cause_fractions`,
lifecycle_pathways.py lines 72-92): clamp to the boundary rows outside the
table, componentwise linear interpolation inside, no renormalization. -/
noncomputable def interpolate_cause_fractions (age : ℤ) : ℝ × ℝ × ℝ :=
  if age ≤ 20 then CAUSE_FRACTIONS_BY_AGE 20
  else if 100 ≤ age then CAUSE_FRACTIONS_BY_AGE 100
  else causeLerp (causeAnchorLo age) (causeAnchorHi age) age

/-- Age-weighted relative risk from the cause-of-death mix
(`get_weighted_rr`, lifecycle_pathways.py lines 95-98). -/
noncomputable def get_weighted_rr (age : ℤ) (rr_cvd rr_cancer rr_other : ℝ) : ℝ :=
  (interpolate_cause_fractions age).1 * rr_cvd +
  (interpolate_cause_fractions age).2.1 * rr_cancer +
  (interpolate_cause_fractions age).2.2 * rr_other

/-- Parameters of the single-hazard-ratio model (`LifecycleParams`,
lifecycle.py lines 104-118), with the source's default field values. -/
structure LifecycleParams where
  start_age : ℤ := 40
  max_age : ℤ := 110
  discount_rate : ℝ := 0.03
  hazard_ratio : ℝ := 0.78
  hazard_ratio_sd : ℝ := 0.08
  confounding_adjustment : ℝ := 0.80
  annual_cost : ℝ := 250.0
  nut_adjustment : ℝ := 1.0
  nut_adjustment_sd : ℝ := 0.1

/-- Parameters of the pathway model (`PathwayParams`, lifecycle_pathways.py
lines 101-137), with the source's default field values. -/
structure PathwayParams where
  start_age : ℤ := 40
  max_age : ℤ := 110
  discount_rate : ℝ := 0.03
  rr_cvd : ℝ := 0.75
  rr_cancer : ℝ := 0.87
  rr_other : ℝ := 0.90
  rr_cvd_sd : ℝ := 0.03
  rr_cancer_sd : ℝ := 0.04
  rr_other_sd : ℝ := 0.03
  confounding_alpha : ℝ := 1.5
  confounding_beta : ℝ := 4.5
  confounding_adjustment : ℝ := 0.25
  annual_cost : ℝ := 250.0
  nut_adjustment : ℝ := 1.0
  nut_adjustment_sd : ℝ := 0.1

/-- Survival at year offset `t` given per-year mortality `m`: the probability
of surviving every year strictly before `t`. This is the shifted cumulative
product `np.insert(np.cumprod(1 - m)[:-1], 0, 1.0)` of the code. -/
noncomputable def survivalFrom (m : ℕ → ℝ) (t : ℕ) : ℝ :=
  ∏ k ∈ Finset.range t, (1 - m k)

namespace LifecycleCEA

/-- Number of modelled years, `len(np.arange(start_age, max_age + 1))`. -/
def n_years (p : LifecycleParams) : ℕ := (p.max_age + 1 - p.start_age).toNat

/-- Baseline mortality at year offset `t` (entry `t` of the array
`get_mortality_curve(start_age, max_age)`). -/
noncomputable def mortality_baseline (p : LifecycleParams) (t : ℕ) : ℝ :=
  interpolate_mortality (p.start_age + t)

/-- Quality weight at year offset `t` (entry `t` of
`get_quality_curve(start_age, max_age)`). -/
noncomputable def quality_weights (p : LifecycleParams) (t : ℕ) : ℝ :=
  get_quality_weight (p.start_age + t)

/-- Nut-adjusted hazard ratio `hazard_ratio ** nut_adjustment`
(lifecycle.py line 187), real-exponent power. -/
noncomputable def adjusted_hr (p : LifecycleParams) : ℝ :=
  p.hazard_ratio ^ p.nut_adjustment

/-- Confounding-shrunk effective hazard ratio (lifecycle.py line 189). -/
noncomputable def effective_hr (p : LifecycleParams) : ℝ :=
  1 - (1 - adjusted_hr p) * p.confounding_adjustment

/-- Intervention mortality (lifecycle.py line 190). -/
noncomputable def mortality_intervention (p : LifecycleParams) (t : ℕ) : ℝ :=
  mortality_baseline p t * effective_hr p

/-- Baseline survival array (lifecycle.py lines 193-194). -/
noncomputable def survival_baseline (p : LifecycleParams) (t : ℕ) : ℝ :=
  survivalFrom (mortality_baseline p) t

/-- Intervention survival array (lifecycle.py lines 196-197). -/
noncomputable def survival_intervention (p : LifecycleParams) (t : ℕ) : ℝ :=
  survivalFrom (mortality_intervention p) t

/-- Undiscounted baseline life years (lifecycle.py line 201). -/
noncomputable def ly_baseline (p : LifecycleParams) : ℝ :=
  ∑ t ∈ Finset.range (n_years p), survival_baseline p t

/-- Undiscounted intervention life years (lifecycle.py line 202). -/
noncomputable def ly_intervention (p : LifecycleParams) : ℝ :=
  ∑ t ∈ Finset.range (n_years p), survival_intervention p t

/-- Undiscounted life years gained (lifecycle.py line 203). -/
noncomputable def ly_gained (p : LifecycleParams) : ℝ :=
  ly_intervention p - ly_baseline p

/-- Undiscounted baseline QALYs (lifecycle.py line 206). -/
noncomputable def qalys_baseline (p : LifecycleParams) : ℝ :=
  ∑ t ∈ Finset.range (n_years p), survival_baseline p t * quality_weights p t

/-- Undiscounted intervention QALYs (lifecycle.py line 207). -/
noncomputable def qalys_intervention (p : LifecycleParams) : ℝ :=
  ∑ t ∈ Finset.range (n_years p), survival_intervention p t * quality_weights p t

/-- Undiscounted QALYs gained (lifecycle.py line 208). -/
noncomputable def qalys_gained (p : LifecycleParams) : ℝ :=
  qalys_intervention p - qalys_baseline p

/-- Discount factor `1 / (1 + discount_rate) ** t` (lifecycle.py lines 211-213). -/
noncomputable def discount_factor (p : LifecycleParams) (t : ℕ) : ℝ :=
  1 / (1 + p.discount_rate) ^ t

/-- Discounted life years gained (lifecycle.py line 215): discounting applied
to the difference of the survival curves. -/
noncomputable def ly_gained_discounted (p : LifecycleParams) : ℝ :=
  ∑ t ∈ Finset.range (n_years p),
    (survival_intervention p t - survival_baseline p t) * discount_factor p t

/-- Per-year QALY gain (lifecycle.py line 217). -/
noncomputable def qaly_gain_per_year (p : LifecycleParams) (t : ℕ) : ℝ :=
  (survival_intervention p t - survival_baseline p t) * quality_weights p t

/-- Discounted QALYs gained (lifecycle.py line 218). -/
noncomputable def qalys_gained_discounted (p : LifecycleParams) : ℝ :=
  ∑ t ∈ Finset.range (n_years p), qaly_gain_per_year p t * discount_factor p t

/-- Total discounted cost: the annual cost accrues while alive in the
intervention arm (lifecycle.py lines 222-223). -/
noncomputable def total_cost_discounted (p : LifecycleParams) : ℝ :=
  ∑ t ∈ Finset.range (n_years p),
    p.annual_cost * survival_intervention p t * discount_factor p t

/-- Cost per discounted life year gained, `float('inf')` when the gain is
not strictly positive (lifecycle.py line 226). -/
noncomputable def cost_per_ly (p : LifecycleParams) : EReal :=
  if 0 < ly_gained_discounted p then
    ((total_cost_discounted p / ly_gained_discounted p : ℝ) : EReal)
  else ⊤

/-- Cost per discounted QALY gained, `float('inf')` when the gain is not
strictly positive (lifecycle.py line 227). -/
noncomputable def cost_per_qaly (p : LifecycleParams) : EReal :=
  if 0 < qalys_gained_discounted p then
    ((total_cost_discounted p / qalys_gained_discounted p : ℝ) : EReal)
  else ⊤

end LifecycleCEA

/-- Results of `LifecycleCEA.run` (lifecycle.py lines 121-145). -/
structure LifecycleResult where
  life_years_baseline : ℝ
  life_years_intervention : ℝ
  life_years_gained : ℝ
  qalys_baseline : ℝ
  qalys_intervention : ℝ
  qalys_gained : ℝ
  life_years_gained_discounted : ℝ
  qalys_gained_discounted : ℝ
  total_cost_discounted : ℝ
  cost_per_ly : EReal
  cost_per_qaly : EReal
  survival_baseline : ℕ → ℝ
  survival_intervention : ℕ → ℝ
  annual_qalys_gained : ℕ → ℝ

namespace LifecycleCEA

/-- The single-hazard-ratio lifecycle model (`LifecycleCEA.run`,
lifecycle.py lines 169-244). Total: every parameter set yields a result. -/
noncomputable def run (p : LifecycleParams) : LifecycleResult :=
  { life_years_baseline := ly_baseline p
    life_years_intervention := ly_intervention p
    life_years_gained := ly_gained p
    qalys_baseline := qalys_baseline p
    qalys_intervention := qalys_intervention p
    qalys_gained := qalys_gained p
    life_years_gained_discounted := ly_gained_discounted p
    qalys_gained_discounted := qalys_gained_discounted p
    total_cost_discounted := total_cost_discounted p
    cost_per_ly := cost_per_ly p
    cost_per_qaly := cost_per_qaly p
    survival_baseline := survival_baseline p
    survival_intervention := survival_intervention p
    annual_qalys_gained := qaly_gain_per_year p }

/-- One Monte Carlo draw of `LifecycleCEA.run_monte_carlo` (lifecycle.py
lines 264-287), modelled against the abstract stream `σ` of sampler-call
outputs: each call to the generator consumes the next stream element, so
`σ 0` is the output of the first sampling call of the draw, `σ 1` of the
second, `σ 2` of the third. In the source the first call is
`rng.normal(log(hazard_ratio), hazard_ratio_sd)` (exponentiated to the
sampled hazard ratio), the second is the `rng.normal` nut-adjustment draw,
and the third is the `rng.beta` confounding draw; the fields not listed in
the `LifecycleParams(...)` constructor call take their dataclass defaults. -/
noncomputable def mc_draw (p : LifecycleParams) (σ : ℕ → ℝ) : LifecycleParams :=
  let sampled_hr := Real.exp (σ 0)
  let sampled_adj := σ 1
  let sampled_conf := σ 2
  { start_age := p.start_age
    max_age := p.max_age
    discount_rate := p.discount_rate
    hazard_ratio := sampled_hr
    confounding_adjustment := sampled_conf
    annual_cost := p.annual_cost
    nut_adjustment := sampled_adj }

end LifecycleCEA

/-- Results of `PathwayLifecycleCEA.run` (lifecycle_pathways.py lines
140-164). -/
structure PathwayResult where
  life_years_cvd : ℝ
  life_years_cancer : ℝ
  life_years_other : ℝ
  life_years_gained : ℝ
  qalys_gained : ℝ
  life_years_gained_discounted : ℝ
  qalys_gained_discounted : ℝ
  total_cost_discounted : ℝ
  cost_per_qaly : EReal
  cvd_contribution : ℝ
  cancer_contribution : ℝ
  other_contribution : ℝ

namespace PathwayLifecycleCEA

/-- Number of modelled years. -/
def n_years (q : PathwayParams) : ℕ := (q.max_age + 1 - q.start_age).toNat

/-- Baseline mortality at year offset `t`. -/
noncomputable def mortality_baseline (q : PathwayParams) (t : ℕ) : ℝ :=
  interpolate_mortality (q.start_age + t)

/-- Quality weight at year offset `t`. -/
noncomputable def quality_weights (q : PathwayParams) (t : ℕ) : ℝ :=
  get_quality_weight (q.start_age + t)

/-- Effective CVD relative risk: nut-adjustment power then confounding
shrinkage (lifecycle_pathways.py lines 194-201). -/
noncomputable def rr_cvd_eff (q : PathwayParams) : ℝ :=
  1 - (1 - q.rr_cvd ^ q.nut_adjustment) * q.confounding_adjustment

/-- Effective cancer relative risk. -/
noncomputable def rr_cancer_eff (q : PathwayParams) : ℝ :=
  1 - (1 - q.rr_cancer ^ q.nut_adjustment) * q.confounding_adjustment

/-- Effective other-cause relative risk. -/
noncomputable def rr_other_eff (q : PathwayParams) : ℝ :=
  1 - (1 - q.rr_other ^ q.nut_adjustment) * q.confounding_adjustment

/-- Age-specific weighted relative risk (lifecycle_pathways.py lines 204-207). -/
noncomputable def weighted_rr (q : PathwayParams) (t : ℕ) : ℝ :=
  get_weighted_rr (q.start_age + t) (rr_cvd_eff q) (rr_cancer_eff q) (rr_other_eff q)

/-- Intervention mortality (lifecycle_pathways.py line 210). -/
noncomputable def mortality_intervention (q : PathwayParams) (t : ℕ) : ℝ :=
  mortality_baseline q t * weighted_rr q t

/-- Baseline survival array (lifecycle_pathways.py lines 213-214). -/
noncomputable def survival_baseline (q : PathwayParams) (t : ℕ) : ℝ :=
  survivalFrom (mortality_baseline q) t

/-- Intervention survival array (lifecycle_pathways.py lines 216-217). -/
noncomputable def survival_intervention (q : PathwayParams) (t : ℕ) : ℝ :=
  survivalFrom (mortality_intervention q) t

/-- Per-age life years gained (lifecycle_pathways.py line 221). -/
noncomputable def ly_gained_by_age (q : PathwayParams) (t : ℕ) : ℝ :=
  survival_intervention q t - survival_baseline q t

/-- Per-age total mortality reduction across the three causes
(lifecycle_pathways.py lines 232-235). -/
noncomputable def total_reduction (q : PathwayParams) (t : ℕ) : ℝ :=
  (interpolate_cause_fractions (q.start_age + t)).1 * (1 - rr_cvd_eff q) +
  (interpolate_cause_fractions (q.start_age + t)).2.1 * (1 - rr_cancer_eff q) +
  (interpolate_cause_fractions (q.start_age + t)).2.2 * (1 - rr_other_eff q)

/-- Per-age CVD contribution weight; zero when the total reduction is not
positive (lifecycle_pathways.py lines 237-240). -/
noncomputable def cvd_contrib (q : PathwayParams) (t : ℕ) : ℝ :=
  if 0 < total_reduction q t then
    (interpolate_cause_fractions (q.start_age + t)).1 * (1 - rr_cvd_eff q) /
      total_reduction q t
  else 0

/-- Per-age cancer contribution weight. -/
noncomputable def cancer_contrib (q : PathwayParams) (t : ℕ) : ℝ :=
  if 0 < total_reduction q t then
    (interpolate_cause_fractions (q.start_age + t)).2.1 * (1 - rr_cancer_eff q) /
      total_reduction q t
  else 0

/-- Per-age other-cause contribution weight. -/
noncomputable def other_contrib (q : PathwayParams) (t : ℕ) : ℝ :=
  if 0 < total_reduction q t then
    (interpolate_cause_fractions (q.start_age + t)).2.2 * (1 - rr_other_eff q) /
      total_reduction q t
  else 0

/-- Undiscounted life years gained attributed to CVD
(lifecycle_pathways.py line 243). -/
noncomputable def ly_cvd (q : PathwayParams) : ℝ :=
  ∑ t ∈ Finset.range (n_years q), ly_gained_by_age q t * cvd_contrib q t

/-- Undiscounted life years gained attributed to cancer. -/
noncomputable def ly_cancer (q : PathwayParams) : ℝ :=
  ∑ t ∈ Finset.range (n_years q), ly_gained_by_age q t * cancer_contrib q t

/-- Undiscounted life years gained attributed to other causes. -/
noncomputable def ly_other (q : PathwayParams) : ℝ :=
  ∑ t ∈ Finset.range (n_years q), ly_gained_by_age q t * other_contrib q t

/-- Total undiscounted life years gained (lifecycle_pathways.py line 246). -/
noncomputable def ly_total (q : PathwayParams) : ℝ :=
  ∑ t ∈ Finset.range (n_years q), ly_gained_by_age q t

/-- Undiscounted QALYs gained (lifecycle_pathways.py lines 249-250). -/
noncomputable def qalys_gained (q : PathwayParams) : ℝ :=
  ∑ t ∈ Finset.range (n_years q), ly_gained_by_age q t * quality_weights q t

/-- Discount factor (lifecycle_pathways.py lines 253-255). -/
noncomputable def discount_factor (q : PathwayParams) (t : ℕ) : ℝ :=
  1 / (1 + q.discount_rate) ^ t

/-- Discounted life years gained (lifecycle_pathways.py line 257). -/
noncomputable def ly_gained_disc (q : PathwayParams) : ℝ :=
  ∑ t ∈ Finset.range (n_years q), ly_gained_by_age q t * discount_factor q t

/-- Discounted QALYs gained (lifecycle_pathways.py line 258). -/
noncomputable def qalys_gained_disc (q : PathwayParams) : ℝ :=
  ∑ t ∈ Finset.range (n_years q),
    ly_gained_by_age q t * quality_weights q t * discount_factor q t

/-- Total discounted cost (lifecycle_pathways.py lines 261-262). -/
noncomputable def total_cost_disc (q : PathwayParams) : ℝ :=
  ∑ t ∈ Finset.range (n_years q),
    q.annual_cost * survival_intervention q t * discount_factor q t

/-- Cost per discounted QALY gained, `float('inf')` when the gain is not
strictly positive (lifecycle_pathways.py line 265). -/
noncomputable def cost_per_qaly (q : PathwayParams) : EReal :=
  if 0 < qalys_gained_disc q then
    ((total_cost_disc q / qalys_gained_disc q : ℝ) : EReal)
  else ⊤

/-- Discounted life years gained attributed to CVD
(lifecycle_pathways.py line 268). -/
noncomputable def ly_cvd_disc (q : PathwayParams) : ℝ :=
  ∑ t ∈ Finset.range (n_years q),
    ly_gained_by_age q t * cvd_contrib q t * discount_factor q t

/-- Discounted life years gained attributed to cancer. -/
noncomputable def ly_cancer_disc (q : PathwayParams) : ℝ :=
  ∑ t ∈ Finset.range (n_years q),
    ly_gained_by_age q t * cancer_contrib q t * discount_factor q t

/-- Discounted life years gained attributed to other causes. -/
noncomputable def ly_other_disc (q : PathwayParams) : ℝ :=
  ∑ t ∈ Finset.range (n_years q),
    ly_gained_by_age q t * other_contrib q t * discount_factor q t

/-- Overall CVD contribution fraction, weighted by discounted life years
gained; zero on a nonpositive denominator (lifecycle_pathways.py line 272). -/
noncomputable def cvd_contribution (q : PathwayParams) : ℝ :=
  if 0 < ly_gained_disc q then ly_cvd_disc q / ly_gained_disc q else 0

/-- Overall cancer contribution fraction (lifecycle_pathways.py line 273). -/
noncomputable def cancer_contribution (q : PathwayParams) : ℝ :=
  if 0 < ly_gained_disc q then ly_cancer_disc q / ly_gained_disc q else 0

/-- Overall other-cause contribution fraction (lifecycle_pathways.py line 274). -/
noncomputable def other_contribution (q : PathwayParams) : ℝ :=
  if 0 < ly_gained_disc q then ly_other_disc q / ly_gained_disc q else 0

/-- The pathway lifecycle model (`PathwayLifecycleCEA.run`,
lifecycle_pathways.py lines 184-289). Total: every parameter set yields a
result. -/
noncomputable def run (q : PathwayParams) : PathwayResult :=
  { life_years_cvd := ly_cvd q
    life_years_cancer := ly_cancer q
    life_years_other := ly_other q
    life_years_gained := ly_total q
    qalys_gained := qalys_gained q
    life_years_gained_discounted := ly_gained_disc q
    qalys_gained_discounted := qalys_gained_disc q
    total_cost_discounted := total_cost_disc q
    cost_per_qaly := cost_per_qaly q
    cvd_contribution := cvd_contribution q
    cancer_contribution := cancer_contribution q
    other_contribution := other_contribution q }

/-- One Monte Carlo draw of `PathwayLifecycleCEA.run_monte_carlo`
(lifecycle_pathways.py lines 302-324), against the abstract stream `σ` of
sampler-call outputs. The source's order of sampling calls per draw is: the
three `rng.normal` log-RR draws (cvd, cancer, other, exponentiated), then
the `rng.beta` confounding draw, then the `rng.normal` nut-adjustment draw;
fields not listed in the `PathwayParams(...)` constructor call take their
dataclass defaults. -/
noncomputable def mc_draw (q : PathwayParams) (σ : ℕ → ℝ) : PathwayParams :=
  let rr_cvd := Real.exp (σ 0)
  let rr_cancer := Real.exp (σ 1)
  let rr_other := Real.exp (σ 2)
  let sampled_conf := σ 3
  let sampled_adj := σ 4
  { start_age := q.start_age
    max_age := q.max_age
    discount_rate := q.discount_rate
    rr_cvd := rr_cvd
    rr_cancer := rr_cancer
    rr_other := rr_other
    confounding_adjustment := sampled_conf
    annual_cost := q.annual_cost
    nut_adjustment := sampled_adj }

end PathwayLifecycleCEA

/-- Parameters of the simple Monte Carlo simulation (`SimulationParams`,
simulation.py lines 69-89), with the source's default field values. The
validation performed by `__post_init__` is modelled by `mkSimulationParams`. -/
structure SimulationParams where
  age : ℤ := 40
  base_hr_mean : ℝ := 0.78
  base_hr_sd : ℝ := 0.08
  life_expectancy : ℝ := 40.0
  quality_weight_alpha : ℝ := 17.0
  quality_weight_beta : ℝ := 3.0
  confounding_adjustment : ℝ := 0.80
  n_simulations : ℤ := 10000

/-- Construction-time validation of `SimulationParams.__post_init__`
(simulation.py lines 83-89): the dataclass is fully populated and then
checked; an out-of-range field raises `ValueError` with a descriptive
message, otherwise the object is returned unchanged (no clamping). -/
noncomputable def mkSimulationParams (p : SimulationParams) : Except String SimulationParams :=
  if p.age < 0 ∨ 120 < p.age then Except.error "Age must be 0-120"
  else if 1 ≤ p.base_hr_mean then Except.error "base_hr_mean must be lt 1.0 (protective)"
  else if p.n_simulations < 1 then Except.error "n_simulations must be ge 1"
  else Except.ok p

/-- Default parameter object for the lifecycle model. -/
noncomputable def defaultLifecycleParams : LifecycleParams := {}

/-- Default parameter object for the pathway model. -/
noncomputable def defaultPathwayParams : PathwayParams := {}

/-- Default simulation parameter object. -/
noncomputable def defaultSimulationParams : SimulationParams := {}

/-! Basic facts about the mortality table and its interpolation. -/

lemma ite_pos {c : Prop} [Decidable c] {x y : ℝ} (hx : 0 < x) (hy : 0 < y) :
    0 < if c then x else y := by
  split
  · exact hx
  · exact hy

lemma ite_le {b : ℝ} {c : Prop} [Decidable c] {x y : ℝ} (hx : x ≤ b) (hy : y ≤ b) :
    (if c then x else y) ≤ b := by
  split
  · exact hx
  · exact hy

lemma rate_pos (k : ℤ) : 0 < US_MORTALITY_RATES k := by
  unfold US_MORTALITY_RATES
  repeat refine ite_pos (by norm_num) ?_
  norm_num

lemma rate_le (k : ℤ) : US_MORTALITY_RATES k ≤ 0.32 := by
  unfold US_MORTALITY_RATES
  repeat refine ite_le (by norm_num) ?_
  norm_num

lemma anchorLo_le (a : ℤ) (h0 : 0 < a) : mortalityAnchorLo a ≤ a := by
  unfold mortalityAnchorLo
  omega

lemma lt_anchorHi (a : ℤ) (h1 : a < 100) : a < mortalityAnchorHi a := by
  unfold mortalityAnchorHi
  omega

lemma anchorLo_lt_anchorHi (a : ℤ) : mortalityAnchorLo a < mortalityAnchorHi a := by
  unfold mortalityAnchorLo mortalityAnchorHi
  omega

lemma mortalityInterp_eq (l u a : ℤ) (hvl : 0 < US_MORTALITY_RATES l)
    (hvu : 0 < US_MORTALITY_RATES u) :
    mortalityInterp l u a = Real.exp (Real.log (US_MORTALITY_RATES l) +
      (((a - l : ℤ) : ℝ) / ((u - l : ℤ) : ℝ)) *
        (Real.log (US_MORTALITY_RATES u) - Real.log (US_MORTALITY_RATES l))) := by
  simp only [mortalityInterp]
  rw [if_neg]
  push_neg
  exact ⟨hvl, hvu⟩

lemma mortalityInterp_pos (l u a : ℤ) (hvl : 0 < US_MORTALITY_RATES l)
    (hvu : 0 < US_MORTALITY_RATES u) : 0 < mortalityInterp l u a := by
  rw [mortalityInterp_eq l u a hvl hvu]
  exact Real.exp_pos _

lemma mortalityInterp_le_one (l u a : ℤ) (hla : l ≤ a) (hau : a < u)
    (hvl : 0 < US_MORTALITY_RATES l) (hvu : 0 < US_MORTALITY_RATES u)
    (hbl : US_MORTALITY_RATES l ≤ 0.32) (hbu : US_MORTALITY_RATES u ≤ 0.32) :
    mortalityInterp l u a ≤ 1 := by
  rw [mortalityInterp_eq l u a hvl hvu,
    show (1 : ℝ) = Real.exp 0 from Real.exp_zero.symm]
  apply Real.exp_le_exp.mpr
  have hL : Real.log (US_MORTALITY_RATES l) < 0 := Real.log_neg hvl (by linarith)
  have hU : Real.log (US_MORTALITY_RATES u) < 0 := Real.log_neg hvu (by linarith)
  have hden : (0 : ℝ) < ((u - l : ℤ) : ℝ) := by
    exact_mod_cast (by omega : (0 : ℤ) < u - l)
  have hfr0 : 0 ≤ ((a - l : ℤ) : ℝ) / ((u - l : ℤ) : ℝ) :=
    div_nonneg (by exact_mod_cast (by omega : (0 : ℤ) ≤ a - l)) hden.le
  have hfr1 : ((a - l : ℤ) : ℝ) / ((u - l : ℤ) : ℝ) ≤ 1 := by
    rw [div_le_one hden]
    exact_mod_cast (by omega : a - l ≤ u - l)
  nlinarith [mul_nonneg hfr0 (neg_nonneg.mpr hU.le),
    mul_nonneg (sub_nonneg.mpr hfr1) (neg_nonneg.mpr hL.le)]

lemma mortalityInterp_mono (l u : ℤ) (hlu : l < u)
    (hvl : 0 < US_MORTALITY_RATES l) (hvu : 0 < US_MORTALITY_RATES u)
    (hv : US_MORTALITY_RATES l ≤ US_MORTALITY_RATES u)
    (a b : ℤ) (hab : a ≤ b) : mortalityInterp l u a ≤ mortalityInterp l u b := by
  rw [mortalityInterp_eq l u a hvl hvu, mortalityInterp_eq l u b hvl hvu]
  apply Real.exp_le_exp.mpr
  have hlog : Real.log (US_MORTALITY_RATES l) ≤ Real.log (US_MORTALITY_RATES u) :=
    Real.log_le_log hvl hv
  have hden : (0 : ℝ) < ((u - l : ℤ) : ℝ) := by
    exact_mod_cast (by omega : (0 : ℤ) < u - l)
  have hfr : ((a - l : ℤ) : ℝ) / ((u - l : ℤ) : ℝ) ≤
      ((b - l : ℤ) : ℝ) / ((u - l : ℤ) : ℝ) := by
    rw [div_le_div_iff_of_pos_right hden]
    exact_mod_cast (by omega : a - l ≤ b - l)
  have := mul_le_mul_of_nonneg_right hfr (sub_nonneg.mpr hlog)
  linarith

lemma mortalityInterp_left (l u : ℤ) (hvl : 0 < US_MORTALITY_RATES l)
    (hvu : 0 < US_MORTALITY_RATES u) :
    mortalityInterp l u l = US_MORTALITY_RATES l := by
  rw [mortalityInterp_eq l u l hvl hvu]
  simp [Real.exp_log hvl]

lemma mortalityInterp_right (l u : ℤ) (hlu : l < u)
    (hvl : 0 < US_MORTALITY_RATES l) (hvu : 0 < US_MORTALITY_RATES u) :
    mortalityInterp l u u = US_MORTALITY_RATES u := by
  rw [mortalityInterp_eq l u u hvl hvu]
  have hne : ((u - l : ℤ) : ℝ) ≠ 0 := by
    exact_mod_cast (by omega : (u - l : ℤ) ≠ 0)
  rw [div_self hne, one_mul,
    show Real.log (US_MORTALITY_RATES l) +
        (Real.log (US_MORTALITY_RATES u) - Real.log (US_MORTALITY_RATES l)) =
      Real.log (US_MORTALITY_RATES u) from by ring,
    Real.exp_log hvu]

lemma interpolate_mortality_interior (a : ℤ) (h0 : 0 < a) (h1 : a < 100) :
    interpolate_mortality a =
      mortalityInterp (mortalityAnchorLo a) (mortalityAnchorHi a) a := by
  unfold interpolate_mortality
  rw [if_neg (by omega), if_neg (by omega)]

lemma interpolate_mortality_tail (a : ℤ) (h : 100 ≤ a) :
    interpolate_mortality a =
      min 1 (US_MORTALITY_RATES 100 * (1.1 : ℝ) ^ (a - 100).toNat) := by
  unfold interpolate_mortality
  rw [if_neg (by omega), if_pos h]

lemma interpolate_mortality_pos (a : ℤ) : 0 < interpolate_mortality a := by
  unfold interpolate_mortality
  split_ifs with h1 h2
  · exact rate_pos 0
  · exact lt_min (by norm_num) (mul_pos (rate_pos 100) (pow_pos (by norm_num) _))
  · exact mortalityInterp_pos _ _ _ (rate_pos _) (rate_pos _)

lemma interpolate_mortality_le_one (a : ℤ) : interpolate_mortality a ≤ 1 := by
  unfold interpolate_mortality
  split_ifs with h1 h2
  · linarith [rate_le 0]
  · exact min_le_left _ _
  · exact mortalityInterp_le_one _ _ _ (anchorLo_le a (by omega))
      (lt_anchorHi a (by omega)) (rate_pos _) (rate_pos _) (rate_le _) (rate_le _)

lemma interp_at_anchor (k : ℤ) (h0 : 0 < k) (hk : k < 100)
    (hLo : mortalityAnchorLo k = k) :
    interpolate_mortality k = US_MORTALITY_RATES k := by
  rw [interpolate_mortality_interior k h0 hk, hLo]
  exact mortalityInterp_left k _ (rate_pos _) (rate_pos _)

lemma interp_at_100 : interpolate_mortality 100 = US_MORTALITY_RATES 100 := by
  rw [interpolate_mortality_tail 100 le_rfl]
  rw [show ((100 : ℤ) - 100).toNat = 0 from by norm_num, pow_zero, mul_one]
  exact min_eq_right (by linarith [rate_le 100])

lemma interp_eq_on (l u : ℤ) (hlu : l < u) (h0l : 0 < l) (hu : u ≤ 100)
    (hanch : ∀ b, l ≤ b → b < u → mortalityAnchorLo b = l ∧ mortalityAnchorHi b = u)
    (hvalu : interpolate_mortality u = US_MORTALITY_RATES u) :
    ∀ b, l ≤ b → b ≤ u → interpolate_mortality b = mortalityInterp l u b := by
  intro b hb1 hb2
  rcases eq_or_lt_of_le hb2 with rfl | hb2l
  · rw [hvalu, mortalityInterp_right l b hlu (rate_pos _) (rate_pos _)]
  · obtain ⟨hL, hH⟩ := hanch b hb1 hb2l
    rw [interpolate_mortality_interior b (by omega) (by omega), hL, hH]

lemma step_on (l u : ℤ) (hlu : l < u) (h0l : 0 < l) (hu : u ≤ 100)
    (hv : US_MORTALITY_RATES l ≤ US_MORTALITY_RATES u)
    (hanch : ∀ b, l ≤ b → b < u → mortalityAnchorLo b = l ∧ mortalityAnchorHi b = u)
    (hvalu : interpolate_mortality u = US_MORTALITY_RATES u)
    (a : ℤ) (h1 : l ≤ a) (h2 : a + 1 ≤ u) :
    interpolate_mortality a ≤ interpolate_mortality (a + 1) := by
  have heq := interp_eq_on l u hlu h0l hu hanch hvalu
  rw [heq a h1 (by omega), heq (a + 1) (by omega) h2]
  exact mortalityInterp_mono l u hlu (rate_pos _) (rate_pos _) hv a (a + 1) (by omega)

lemma interpolate_mortality_step (a : ℤ) (ha : 10 ≤ a) :
    interpolate_mortality a ≤ interpolate_mortality (a + 1) := by
  rcases lt_or_le a 100 with h100 | h100
  · have hcase : (10 ≤ a ∧ a + 1 ≤ 15) ∨ (15 ≤ a ∧ a + 1 ≤ 20) ∨
        (20 ≤ a ∧ a + 1 ≤ 25) ∨ (25 ≤ a ∧ a + 1 ≤ 30) ∨ (30 ≤ a ∧ a + 1 ≤ 35) ∨
        (35 ≤ a ∧ a + 1 ≤ 40) ∨ (40 ≤ a ∧ a + 1 ≤ 45) ∨ (45 ≤ a ∧ a + 1 ≤ 50) ∨
        (50 ≤ a ∧ a + 1 ≤ 55) ∨ (55 ≤ a ∧ a + 1 ≤ 60) ∨ (60 ≤ a ∧ a + 1 ≤ 65) ∨
        (65 ≤ a ∧ a + 1 ≤ 70) ∨ (70 ≤ a ∧ a + 1 ≤ 75) ∨ (75 ≤ a ∧ a + 1 ≤ 80) ∨
        (80 ≤ a ∧ a + 1 ≤ 85) ∨ (85 ≤ a ∧ a + 1 ≤ 90) ∨ (90 ≤ a ∧ a + 1 ≤ 95) ∨
        (95 ≤ a ∧ a + 1 ≤ 100) := by omega
    rcases hcase with h | h | h | h | h | h | h | h | h | h | h | h | h | h | h | h | h | h
    · exact step_on 10 15 (by norm_num) (by norm_num) (by norm_num)
        (by norm_num [US_MORTALITY_RATES])
        (fun b hb1 hb2 => by unfold mortalityAnchorLo mortalityAnchorHi; omega)
        (interp_at_anchor 15 (by norm_num) (by norm_num)
          (by unfold mortalityAnchorLo; omega)) a h.1 h.2
    · exact step_on 15 20 (by norm_num) (by norm_num) (by norm_num)
        (by norm_num [US_MORTALITY_RATES])
        (fun b hb1 hb2 => by unfold mortalityAnchorLo mortalityAnchorHi; omega)
        (interp_at_anchor 20 (by norm_num) (by norm_num)
          (by unfold mortalityAnchorLo; omega)) a h.1 h.2
    · exact step_on 20 25 (by norm_num) (by norm_num) (by norm_num)
        (by norm_num [US_MORTALITY_RATES])
        (fun b hb1 hb2 => by unfold mortalityAnchorLo mortalityAnchorHi; omega)
        (interp_at_anchor 25 (by norm_num) (by norm_num)
          (by unfold mortalityAnchorLo; omega)) a h.1 h.2
    · exact step_on 25 30 (by norm_num) (by norm_num) (by norm_num)
        (by norm_num [US_MORTALITY_RATES])
        (fun b hb1 hb2 => by unfold mortalityAnchorLo mortalityAnchorHi; omega)
        (interp_at_anchor 30 (by norm_num) (by norm_num)
          (by unfold mortalityAnchorLo; omega)) a h.1 h.2
    · exact step_on 30 35 (by norm_num) (by norm_num) (by norm_num)
        (by norm_num [US_MORTALITY_RATES])
        (fun b hb1 hb2 => by unfold mortalityAnchorLo mortalityAnchorHi; omega)
        (interp_at_anchor 35 (by norm_num) (by norm_num)
          (by unfold mortalityAnchorLo; omega)) a h.1 h.2
    · exact step_on 35 40 (by norm_num) (by norm_num) (by norm_num)
        (by norm_num [US_MORTALITY_RATES])
        (fun b hb1 hb2 => by unfold mortalityAnchorLo mortalityAnchorHi; omega)
        (interp_at_anchor 40 (by norm_num) (by norm_num)
          (by unfold mortalityAnchorLo; omega)) a h.1 h.2
    · exact step_on 40 45 (by norm_num) (by norm_num) (by norm_num)
        (by norm_num [US_MORTALITY_RATES])
        (fun b hb1 hb2 => by unfold mortalityAnchorLo mortalityAnchorHi; omega)
        (interp_at_anchor 45 (by norm_num) (by norm_num)
          (by unfold mortalityAnchorLo; omega)) a h.1 h.2
    · exact step_on 45 50 (by norm_num) (by norm_num) (by norm_num)
        (by norm_num [US_MORTALITY_RATES])
        (fun b hb1 hb2 => by unfold mortalityAnchorLo mortalityAnchorHi; omega)
        (interp_at_anchor 50 (by norm_num) (by norm_num)
          (by unfold mortalityAnchorLo; omega)) a h.1 h.2
    · exact step_on 50 55 (by norm_num) (by norm_num) (by norm_num)
        (by norm_num [US_MORTALITY_RATES])
        (fun b hb1 hb2 => by unfold mortalityAnchorLo mortalityAnchorHi; omega)
        (interp_at_anchor 55 (by norm_num) (by norm_num)
          (by unfold mortalityAnchorLo; omega)) a h.1 h.2
    · exact step_on 55 60 (by norm_num) (by norm_num) (by norm_num)
        (by norm_num [US_MORTALITY_RATES])
        (fun b hb1 hb2 => by unfold mortalityAnchorLo mortalityAnchorHi; omega)
        (interp_at_anchor 60 (by norm_num) (by norm_num)
          (by unfold mortalityAnchorLo; omega)) a h.1 h.2
    · exact step_on 60 65 (by norm_num) (by norm_num) (by norm_num)
        (by norm_num [US_MORTALITY_RATES])
        (fun b hb1 hb2 => by unfold mortalityAnchorLo mortalityAnchorHi; omega)
        (interp_at_anchor 65 (by norm_num) (by norm_num)
          (by unfold mortalityAnchorLo; omega)) a h.1 h.2
    · exact step_on 65 70 (by norm_num) (by norm_num) (by norm_num)
        (by norm_num [US_MORTALITY_RATES])
        (fun b hb1 hb2 => by unfold mortalityAnchorLo mortalityAnchorHi; omega)
        (interp_at_anchor 70 (by norm_num) (by norm_num)
          (by unfold mortalityAnchorLo; omega)) a h.1 h.2
    · exact step_on 70 75 (by norm_num) (by norm_num) (by norm_num)
        (by norm_num [US_MORTALITY_RATES])
        (fun b hb1 hb2 => by unfold mortalityAnchorLo mortalityAnchorHi; omega)
        (interp_at_anchor 75 (by norm_num) (by norm_num)
          (by unfold mortalityAnchorLo; omega)) a h.1 h.2
    · exact step_on 75 80 (by norm_num) (by norm_num) (by norm_num)
        (by norm_num [US_MORTALITY_RATES])
        (fun b hb1 hb2 => by unfold mortalityAnchorLo mortalityAnchorHi; omega)
        (interp_at_anchor 80 (by norm_num) (by norm_num)
          (by unfold mortalityAnchorLo; omega)) a h.1 h.2
    · exact step_on 80 85 (by norm_num) (by norm_num) (by norm_num)
        (by norm_num [US_MORTALITY_RATES])
        (fun b hb1 hb2 => by unfold mortalityAnchorLo mortalityAnchorHi; omega)
        (interp_at_anchor 85 (by norm_num) (by norm_num)
          (by unfold mortalityAnchorLo; omega)) a h.1 h.2
    · exact step_on 85 90 (by norm_num) (by norm_num) (by norm_num)
        (by norm_num [US_MORTALITY_RATES])
        (fun b hb1 hb2 => by unfold mortalityAnchorLo mortalityAnchorHi; omega)
        (interp_at_anchor 90 (by norm_num) (by norm_num)
          (by unfold mortalityAnchorLo; omega)) a h.1 h.2
    · exact step_on 90 95 (by norm_num) (by norm_num) (by norm_num)
        (by norm_num [US_MORTALITY_RATES])
        (fun b hb1 hb2 => by unfold mortalityAnchorLo mortalityAnchorHi; omega)
        (interp_at_anchor 95 (by norm_num) (by norm_num)
          (by unfold mortalityAnchorLo; omega)) a h.1 h.2
    · exact step_on 95 100 (by norm_num) (by norm_num) (by norm_num)
        (by norm_num [US_MORTALITY_RATES])
        (fun b hb1 hb2 => by unfold mortalityAnchorLo mortalityAnchorHi; omega)
        interp_at_100 a h.1 h.2
  · rw [interpolate_mortality_tail a h100, interpolate_mortality_tail (a + 1) (by omega)]
    have hto : (a + 1 - 100).toNat = (a - 100).toNat + 1 := by omega
    rw [hto, pow_succ]
    apply min_le_min le_rfl
    have hx : (0 : ℝ) ≤ US_MORTALITY_RATES 100 * (1.1 : ℝ) ^ (a - 100).toNat :=
      mul_nonneg (rate_pos 100).le (pow_nonneg (by norm_num) _)
    nlinarith

/-! Facts about the cause-of-death mix. -/

/-- A well-formed cause-fraction row: positive CVD share, nonnegative cancer
and other shares, and shares summing to one. -/
def goodRow (r : ℝ × ℝ × ℝ) : Prop :=
  0 < r.1 ∧ 0 ≤ r.2.1 ∧ 0 ≤ r.2.2 ∧ r.1 + r.2.1 + r.2.2 = 1

lemma ite_goodRow {c : Prop} [Decidable c] {x y : ℝ × ℝ × ℝ}
    (hx : goodRow x) (hy : goodRow y) : goodRow (if c then x else y) := by
  split
  · exact hx
  · exact hy

lemma cause_row_good (k : ℤ) : goodRow (CAUSE_FRACTIONS_BY_AGE k) := by
  unfold CAUSE_FRACTIONS_BY_AGE
  repeat refine ite_goodRow (by norm_num [goodRow]) ?_
  norm_num [goodRow]

lemma causeAnchorLo_le (a : ℤ) (h0 : 20 < a) : causeAnchorLo a ≤ a := by
  unfold causeAnchorLo
  omega

lemma lt_causeAnchorHi (a : ℤ) (h1 : a < 100) : a < causeAnchorHi a := by
  unfold causeAnchorHi
  omega

lemma causeAnchorLo_lt_causeAnchorHi (a : ℤ) : causeAnchorLo a < causeAnchorHi a := by
  unfold causeAnchorLo causeAnchorHi
  omega

lemma causeLerp_good (l u a : ℤ) (hlu : l < u) (h1 : l ≤ a) (h2 : a ≤ u) :
    goodRow (causeLerp l u a) := by
  obtain ⟨hc1, hc2, hc3, hcs⟩ := cause_row_good l
  obtain ⟨hd1, hd2, hd3, hds⟩ := cause_row_good u
  have hden : (0 : ℝ) < ((u - l : ℤ) : ℝ) := by
    exact_mod_cast (by omega : (0 : ℤ) < u - l)
  have hfr0 : 0 ≤ ((a - l : ℤ) : ℝ) / ((u - l : ℤ) : ℝ) :=
    div_nonneg (by exact_mod_cast (by omega : (0 : ℤ) ≤ a - l)) hden.le
  have hfr1 : ((a - l : ℤ) : ℝ) / ((u - l : ℤ) : ℝ) ≤ 1 := by
    rw [div_le_one hden]
    exact_mod_cast (by omega : a - l ≤ u - l)
  set fr : ℝ := ((a - l : ℤ) : ℝ) / ((u - l : ℤ) : ℝ) with hfrdef
  unfold causeLerp goodRow
  dsimp only
  rw [← hfrdef]
  refine ⟨?_, ?_, ?_, ?_⟩
  · rcases lt_or_le fr 1 with hf | hf
    · nlinarith [mul_pos (by linarith : (0 : ℝ) < 1 - fr) hc1, mul_nonneg hfr0 hd1.le]
    · have hfe : fr = 1 := le_antisymm hfr1 hf
      rw [hfe]
      linarith
  · have e1 := mul_nonneg (sub_nonneg.mpr hfr1) hc2
    have e2 := mul_nonneg hfr0 hd2
    nlinarith
  · have e1 := mul_nonneg (sub_nonneg.mpr hfr1) hc3
    have e2 := mul_nonneg hfr0 hd3
    nlinarith
  · linear_combination (1 - fr) * hcs + fr * hds

lemma cause_good (age : ℤ) : goodRow (interpolate_cause_fractions age) := by
  unfold interpolate_cause_fractions
  split_ifs with h1 h2
  · exact cause_row_good 20
  · exact cause_row_good 100
  · exact causeLerp_good _ _ _ (causeAnchorLo_lt_causeAnchorHi age)
      (causeAnchorLo_le age (by omega)) (lt_causeAnchorHi age (by omega)).le

/-! Facts about survival curves. -/

lemma survivalFrom_zero (m : ℕ → ℝ) : survivalFrom m 0 = 1 := by
  simp [survivalFrom]

lemma survivalFrom_succ (m : ℕ → ℝ) (t : ℕ) :
    survivalFrom m (t + 1) = survivalFrom m t * (1 - m t) :=
  Finset.prod_range_succ _ _

lemma survivalFrom_nonneg (m : ℕ → ℝ) (h : ∀ k, m k ≤ 1) (t : ℕ) :
    0 ≤ survivalFrom m t :=
  Finset.prod_nonneg fun k _ => by linarith [h k]

lemma survivalFrom_le_one (m : ℕ → ℝ) (h0 : ∀ k, 0 ≤ m k) (h1 : ∀ k, m k ≤ 1)
    (t : ℕ) : survivalFrom m t ≤ 1 :=
  Finset.prod_le_one (fun k _ => by linarith [h1 k]) (fun k _ => by linarith [h0 k])

lemma survivalFrom_antitone (m : ℕ → ℝ) (h0 : ∀ k, 0 ≤ m k) (h1 : ∀ k, m k ≤ 1)
    (t : ℕ) : survivalFrom m (t + 1) ≤ survivalFrom m t := by
  rw [survivalFrom_succ]
  exact mul_le_of_le_one_right (survivalFrom_nonneg m h1 t) (by linarith [h0 t])

lemma survivalFrom_pos (m : ℕ → ℝ) (h : ∀ k, m k < 1) (t : ℕ) :
    0 < survivalFrom m t :=
  Finset.prod_pos fun k _ => by linarith [h k]

lemma survivalFrom_le_survivalFrom (m m' : ℕ → ℝ) (hle : ∀ k, m' k ≤ m k)
    (hub : ∀ k, m k ≤ 1) (t : ℕ) : survivalFrom m t ≤ survivalFrom m' t :=
  Finset.prod_le_prod (fun k _ => by linarith [hub k]) (fun k _ => by linarith [hle k])

lemma survivalFrom_lt_survivalFrom (m m' : ℕ → ℝ) (hlt : ∀ k, m' k < m k)
    (hub : ∀ k, m k < 1) (t : ℕ) (ht : 0 < t) :
    survivalFrom m t < survivalFrom m' t := by
  unfold survivalFrom
  exact Finset.prod_lt_prod_of_nonempty (fun k _ => by linarith [hub k])
    (fun k _ => by linarith [hlt k]) (Finset.nonempty_range_iff.mpr (by omega))

/-! Facts about the effective hazard ratios. -/

lemma eff_bounds_weak (r na c : ℝ) (hr0 : 0 < r) (hr1 : r ≤ 1) (hna : 0 ≤ na)
    (hc0 : 0 ≤ c) (hc1 : c ≤ 1) :
    0 < 1 - (1 - r ^ na) * c ∧ 1 - (1 - r ^ na) * c ≤ 1 := by
  have h1 : 0 < r ^ na := Real.rpow_pos_of_pos hr0 _
  have h2 : r ^ na ≤ 1 := Real.rpow_le_one hr0.le hr1 hna
  constructor
  · nlinarith [mul_le_of_le_one_right (by linarith : (0 : ℝ) ≤ 1 - r ^ na) hc1]
  · nlinarith [mul_nonneg (by linarith : (0 : ℝ) ≤ 1 - r ^ na) hc0]

lemma eff_bounds (r na c : ℝ) (hr0 : 0 < r) (hr1 : r < 1) (hna : 0 < na)
    (hc0 : 0 < c) (hc1 : c ≤ 1) :
    0 < 1 - (1 - r ^ na) * c ∧ 1 - (1 - r ^ na) * c < 1 := by
  have h1 : 0 < r ^ na := Real.rpow_pos_of_pos hr0 _
  have h2 : r ^ na < 1 := Real.rpow_lt_one hr0.le hr1 hna
  constructor
  · nlinarith [mul_le_of_le_one_right (by linarith : (0 : ℝ) ≤ 1 - r ^ na) hc1]
  · nlinarith [mul_pos (by linarith : (0 : ℝ) < 1 - r ^ na) hc0]

lemma eff_strict_mono (r1 r2 na c : ℝ) (h0 : 0 < r1) (h12 : r1 < r2) (hna : 0 < na)
    (hc : 0 < c) : 1 - (1 - r1 ^ na) * c < 1 - (1 - r2 ^ na) * c := by
  have hpow := Real.rpow_lt_rpow h0.le h12 hna
  nlinarith [mul_lt_mul_of_pos_right (by linarith : 1 - r2 ^ na < 1 - r1 ^ na) hc]

/-! Null-effect helpers: a unit (effective) hazard ratio leaves the survival
curves unchanged. -/

lemma effective_hr_of_unit (p : LifecycleParams) (hp : p.hazard_ratio = 1) :
    LifecycleCEA.effective_hr p = 1 := by
  unfold LifecycleCEA.effective_hr LifecycleCEA.adjusted_hr
  rw [hp, Real.one_rpow]
  ring

lemma lifecycle_survival_eq (p : LifecycleParams)
    (heff : LifecycleCEA.effective_hr p = 1) (t : ℕ) :
    LifecycleCEA.survival_intervention p t = LifecycleCEA.survival_baseline p t := by
  unfold LifecycleCEA.survival_intervention LifecycleCEA.survival_baseline
    LifecycleCEA.mortality_intervention survivalFrom
  exact Finset.prod_congr rfl fun k _ => by simp only [heff, mul_one]

lemma lifecycle_gains_zero (p : LifecycleParams)
    (heff : LifecycleCEA.effective_hr p = 1) :
    LifecycleCEA.ly_gained p = 0 ∧ LifecycleCEA.qalys_gained p = 0 := by
  constructor
  · unfold LifecycleCEA.ly_gained LifecycleCEA.ly_intervention LifecycleCEA.ly_baseline
    rw [Finset.sum_congr rfl fun t _ => lifecycle_survival_eq p heff t]
    ring
  · unfold LifecycleCEA.qalys_gained LifecycleCEA.qalys_intervention
      LifecycleCEA.qalys_baseline
    rw [Finset.sum_congr rfl fun t _ => by rw [lifecycle_survival_eq p heff t]]
    ring

lemma pathway_rr_eff_of_unit (q : PathwayParams) (h1 : q.rr_cvd = 1)
    (h2 : q.rr_cancer = 1) (h3 : q.rr_other = 1) :
    PathwayLifecycleCEA.rr_cvd_eff q = 1 ∧ PathwayLifecycleCEA.rr_cancer_eff q = 1 ∧
      PathwayLifecycleCEA.rr_other_eff q = 1 := by
  unfold PathwayLifecycleCEA.rr_cvd_eff PathwayLifecycleCEA.rr_cancer_eff
    PathwayLifecycleCEA.rr_other_eff
  rw [h1, h2, h3, Real.one_rpow]
  norm_num

lemma pathway_weighted_rr_of_unit (q : PathwayParams) (hc : PathwayLifecycleCEA.rr_cvd_eff q = 1)
    (hk : PathwayLifecycleCEA.rr_cancer_eff q = 1) (ho : PathwayLifecycleCEA.rr_other_eff q = 1)
    (t : ℕ) : PathwayLifecycleCEA.weighted_rr q t = 1 := by
  unfold PathwayLifecycleCEA.weighted_rr get_weighted_rr
  rw [hc, hk, ho, mul_one, mul_one, mul_one]
  exact (cause_good (q.start_age + t)).2.2.2

lemma pathway_gains_zero (q : PathwayParams)
    (hw : ∀ t, PathwayLifecycleCEA.weighted_rr q t = 1) :
    (∀ t, PathwayLifecycleCEA.ly_gained_by_age q t = 0) ∧
      PathwayLifecycleCEA.ly_total q = 0 ∧ PathwayLifecycleCEA.qalys_gained q = 0 := by
  have hz : ∀ t, PathwayLifecycleCEA.ly_gained_by_age q t = 0 := by
    intro t
    unfold PathwayLifecycleCEA.ly_gained_by_age PathwayLifecycleCEA.survival_intervention
      PathwayLifecycleCEA.survival_baseline PathwayLifecycleCEA.mortality_intervention
      survivalFrom
    rw [Finset.prod_congr rfl fun k _ =>
      (by simp only [hw k, mul_one] : 1 - (fun t =>
        PathwayLifecycleCEA.mortality_baseline q t *
          PathwayLifecycleCEA.weighted_rr q t) k =
        1 - PathwayLifecycleCEA.mortality_baseline q k)]
    ring
  refine ⟨hz, ?_, ?_⟩
  · unfold PathwayLifecycleCEA.ly_total
    rw [Finset.sum_congr rfl fun t _ => hz t]
    exact Finset.sum_const_zero
  · unfold PathwayLifecycleCEA.qalys_gained
    rw [Finset.sum_congr rfl fun t _ => by rw [hz t, zero_mul]]
    exact Finset.sum_const_zero

/-! The claims. -/

/-- C3 counterexample. The spec claims the per-draw sampling order of
`LifecycleCEA.run_monte_carlo` is hazard-ratio draw, then confounding, then
nut adjustment; if that held, the sampled confounding adjustment would be
determined by the first two sampler-call outputs of the stream. Two streams
agreeing on calls 0 and 1 but differing on call 2 produce different sampled
confounding adjustments, refuting the claimed order. -/
theorem c3_draw_order_counterexample :
    ¬ (∀ σ σ' : ℕ → ℝ, σ 0 = σ' 0 → σ 1 = σ' 1 →
        (LifecycleCEA.mc_draw defaultLifecycleParams σ).confounding_adjustment =
          (LifecycleCEA.mc_draw defaultLifecycleParams σ').confounding_adjustment) := by
  intro h
  have h2 := h (fun n => if n = 2 then 1 else 0) (fun _ => 0)
    (by norm_num) (by norm_num)
  norm_num [LifecycleCEA.mc_draw] at h2

/-- C3 amended: within each Monte Carlo draw the stream of sampler-call
outputs is consumed in source order, which for the single-hazard-ratio
engine is the hazard-ratio draw (call 0), then the nut-adjustment draw
(call 1), then the confounding draw (call 2); for the pathway engine it is
the three relative-risk draws (calls 0-2), then the confounding draw
(call 3), then the nut-adjustment draw (call 4). -/
theorem c3_draw_order_amended (p : LifecycleParams) (q : PathwayParams) (σ : ℕ → ℝ) :
    (LifecycleCEA.mc_draw p σ).hazard_ratio = Real.exp (σ 0) ∧
    (LifecycleCEA.mc_draw p σ).nut_adjustment = σ 1 ∧
    (LifecycleCEA.mc_draw p σ).confounding_adjustment = σ 2 ∧
    (PathwayLifecycleCEA.mc_draw q σ).rr_cvd = Real.exp (σ 0) ∧
    (PathwayLifecycleCEA.mc_draw q σ).rr_cancer = Real.exp (σ 1) ∧
    (PathwayLifecycleCEA.mc_draw q σ).rr_other = Real.exp (σ 2) ∧
    (PathwayLifecycleCEA.mc_draw q σ).confounding_adjustment = σ 3 ∧
    (PathwayLifecycleCEA.mc_draw q σ).nut_adjustment = σ 4 :=
  ⟨rfl, rfl, rfl, rfl, rfl, rfl, rfl, rfl⟩

/-- C4: both engines compute the cost-effectiveness ratio as the total
discounted cost divided by the discounted gain when the gain is strictly
positive and as positive infinity otherwise, for every parameter set (the
operation is total, so it never raises); the same rule applies to
`cost_per_ly`. -/
theorem c4_cost_per_qaly_rule (p : LifecycleParams) (q : PathwayParams) :
    (LifecycleCEA.run p).cost_per_qaly =
      (if 0 < LifecycleCEA.qalys_gained_discounted p then
        ((LifecycleCEA.total_cost_discounted p /
          LifecycleCEA.qalys_gained_discounted p : ℝ) : EReal)
      else ⊤) ∧
    (LifecycleCEA.run p).cost_per_ly =
      (if 0 < LifecycleCEA.ly_gained_discounted p then
        ((LifecycleCEA.total_cost_discounted p /
          LifecycleCEA.ly_gained_discounted p : ℝ) : EReal)
      else ⊤) ∧
    (PathwayLifecycleCEA.run q).cost_per_qaly =
      (if 0 < PathwayLifecycleCEA.qalys_gained_disc q then
        ((PathwayLifecycleCEA.total_cost_disc q /
          PathwayLifecycleCEA.qalys_gained_disc q : ℝ) : EReal)
      else ⊤) :=
  ⟨rfl, rfl, rfl⟩

/-- C6: a unit hazard ratio (lifecycle) or unit relative risks on all three
pathways (pathway engine) yields life-years gained and QALYs gained of
absolute value below 1e-3 (they are exactly zero). -/
theorem c6_null_effect_zero_gain (p : LifecycleParams) (q : PathwayParams)
    (hp : p.hazard_ratio = 1) (h1 : q.rr_cvd = 1) (h2 : q.rr_cancer = 1)
    (h3 : q.rr_other = 1) :
    |(LifecycleCEA.run p).life_years_gained| < 1e-3 ∧
    |(LifecycleCEA.run p).qalys_gained| < 1e-3 ∧
    |(PathwayLifecycleCEA.run q).life_years_gained| < 1e-3 ∧
    |(PathwayLifecycleCEA.run q).qalys_gained| < 1e-3 := by
  obtain ⟨hly, hq⟩ := lifecycle_gains_zero p (effective_hr_of_unit p hp)
  obtain ⟨hc, hk, ho⟩ := pathway_rr_eff_of_unit q h1 h2 h3
  obtain ⟨-, hply, hpq⟩ :=
    pathway_gains_zero q (pathway_weighted_rr_of_unit q hc hk ho)
  refine ⟨?_, ?_, ?_, ?_⟩
  · show |LifecycleCEA.ly_gained p| < 1e-3
    rw [hly]
    norm_num
  · show |LifecycleCEA.qalys_gained p| < 1e-3
    rw [hq]
    norm_num
  · show |PathwayLifecycleCEA.ly_total q| < 1e-3
    rw [hply]
    norm_num
  · show |PathwayLifecycleCEA.qalys_gained q| < 1e-3
    rw [hpq]
    norm_num

/-- C6 witness: the theorem applied to the default parameter sets with a
unit hazard ratio and unit relative risks. -/
theorem c6_null_effect_zero_gain_witness :
    |(LifecycleCEA.run { hazard_ratio := 1 }).life_years_gained| < 1e-3 ∧
    |(LifecycleCEA.run { hazard_ratio := 1 }).qalys_gained| < 1e-3 ∧
    |(PathwayLifecycleCEA.run
        { rr_cvd := 1, rr_cancer := 1, rr_other := 1 }).life_years_gained| < 1e-3 ∧
    |(PathwayLifecycleCEA.run
        { rr_cvd := 1, rr_cancer := 1, rr_other := 1 }).qalys_gained| < 1e-3 :=
  c6_null_effect_zero_gain { hazard_ratio := 1 }
    { rr_cvd := 1, rr_cancer := 1, rr_other := 1 } rfl rfl rfl rfl

/-- C7: at every age the interpolated cause-of-death shares (cvd, cancer,
other) sum to 1 within 1e-6 (the sum is exactly 1: every anchor row sums to
1 and linear interpolation preserves the sum; no renormalization happens). -/
theorem c7_cause_fractions_sum (age : ℤ) :
    |(interpolate_cause_fractions age).1 + (interpolate_cause_fractions age).2.1 +
      (interpolate_cause_fractions age).2.2 - 1| ≤ 1e-6 := by
  obtain ⟨-, -, -, hs⟩ := cause_good age
  rw [hs]
  norm_num

/-- C9: `SimulationParams` validation happens at construction: the
constructor returns the parameter object unchanged (no clamping) exactly
when the age is in [0, 120], the base hazard ratio is protective (below 1)
and at least one simulation is requested; otherwise it fails immediately
with a descriptive error, before any simulation work. -/
theorem c9_validation (p : SimulationParams) :
    (mkSimulationParams p = Except.ok p ↔
      0 ≤ p.age ∧ p.age ≤ 120 ∧ p.base_hr_mean < 1 ∧ 1 ≤ p.n_simulations) ∧
    ((p.age < 0 ∨ 120 < p.age ∨ 1 ≤ p.base_hr_mean ∨ p.n_simulations < 1) →
      ∃ msg, mkSimulationParams p = Except.error msg) := by
  unfold mkSimulationParams
  constructor
  · constructor
    · intro h
      split_ifs at h with hv1 hv2 hv3 <;>
        first
          | exact Except.noConfusion h
          | (push_neg at hv1
             exact ⟨by omega, by omega, by linarith [not_le.mp hv2], by omega⟩)
    · rintro ⟨ha1, ha2, hhr, hn⟩
      rw [if_neg (by push_neg; exact ⟨ha1, ha2⟩), if_neg (not_le.mpr hhr),
        if_neg (by omega)]
  · intro h
    by_cases hv1 : p.age < 0 ∨ 120 < p.age
    · exact ⟨"Age must be 0-120", by rw [if_pos hv1]⟩
    · rw [if_neg hv1]
      by_cases hv2 : 1 ≤ p.base_hr_mean
      · exact ⟨"base_hr_mean must be lt 1.0 (protective)", by rw [if_pos hv2]⟩
      · rw [if_neg hv2]
        have hv3 : p.n_simulations < 1 := by
          rcases h with h | h | h | h
          · exact absurd (Or.inl h) hv1
          · exact absurd (Or.inr h) hv1
          · exact absurd h hv2
          · exact h
        exact ⟨"n_simulations must be ge 1", by rw [if_pos hv3]⟩

/-- C9 witness: the default parameters pass validation unchanged, and an
age of 130 is rejected with an error at construction. -/
theorem c9_validation_witness :
    mkSimulationParams defaultSimulationParams = Except.ok defaultSimulationParams ∧
    ∃ msg, mkSimulationParams { defaultSimulationParams with age := 130 } =
      Except.error msg := by
  constructor
  · exact (c9_validation defaultSimulationParams).1.mpr
      (by refine ⟨?_, ?_, ?_, ?_⟩ <;> norm_num [defaultSimulationParams])
  · exact (c9_validation { defaultSimulationParams with age := 130 }).2
      (Or.inr (Or.inl (by norm_num [defaultSimulationParams])))

/-- C10: under a protective hazard ratio in (0, 1], a nonnegative nut
adjustment and a confounding adjustment in [0, 1], both survival arrays of
`LifecycleCEA.run` start at exactly 1, are monotonically non-increasing and
have every entry in [0, 1]. -/
theorem c10_survival_invariants (p : LifecycleParams) (hhr0 : 0 < p.hazard_ratio)
    (hhr1 : p.hazard_ratio ≤ 1) (hna : 0 ≤ p.nut_adjustment)
    (hc0 : 0 ≤ p.confounding_adjustment) (hc1 : p.confounding_adjustment ≤ 1) :
    (LifecycleCEA.run p).survival_baseline 0 = 1 ∧
    (LifecycleCEA.run p).survival_intervention 0 = 1 ∧
    (∀ t, (LifecycleCEA.run p).survival_baseline (t + 1) ≤
      (LifecycleCEA.run p).survival_baseline t) ∧
    (∀ t, (LifecycleCEA.run p).survival_intervention (t + 1) ≤
      (LifecycleCEA.run p).survival_intervention t) ∧
    (∀ t, 0 ≤ (LifecycleCEA.run p).survival_baseline t ∧
      (LifecycleCEA.run p).survival_baseline t ≤ 1) ∧
    (∀ t, 0 ≤ (LifecycleCEA.run p).survival_intervention t ∧
      (LifecycleCEA.run p).survival_intervention t ≤ 1) := by
  have heff : 0 < LifecycleCEA.effective_hr p ∧ LifecycleCEA.effective_hr p ≤ 1 :=
    eff_bounds_weak p.hazard_ratio p.nut_adjustment p.confounding_adjustment
      hhr0 hhr1 hna hc0 hc1
  have hmb0 : ∀ k, 0 ≤ LifecycleCEA.mortality_baseline p k :=
    fun k => (interpolate_mortality_pos _).le
  have hmb1 : ∀ k, LifecycleCEA.mortality_baseline p k ≤ 1 :=
    fun k => interpolate_mortality_le_one _
  have hmi0 : ∀ k, 0 ≤ LifecycleCEA.mortality_intervention p k :=
    fun k => mul_nonneg (hmb0 k) heff.1.le
  have hmi1 : ∀ k, LifecycleCEA.mortality_intervention p k ≤ 1 := fun k => by
    have h := mul_le_mul_of_nonneg_right (hmb1 k) heff.1.le
    unfold LifecycleCEA.mortality_intervention
    nlinarith [heff.2]
  exact ⟨survivalFrom_zero (LifecycleCEA.mortality_baseline p),
    survivalFrom_zero (LifecycleCEA.mortality_intervention p),
    fun t => survivalFrom_antitone (LifecycleCEA.mortality_baseline p) hmb0 hmb1 t,
    fun t => survivalFrom_antitone (LifecycleCEA.mortality_intervention p) hmi0 hmi1 t,
    fun t => ⟨survivalFrom_nonneg (LifecycleCEA.mortality_baseline p) hmb1 t,
      survivalFrom_le_one (LifecycleCEA.mortality_baseline p) hmb0 hmb1 t⟩,
    fun t => ⟨survivalFrom_nonneg (LifecycleCEA.mortality_intervention p) hmi1 t,
      survivalFrom_le_one (LifecycleCEA.mortality_intervention p) hmi0 hmi1 t⟩⟩

/-- C10 witness: the theorem applied to the default lifecycle parameters. -/
theorem c10_survival_invariants_witness :
    (LifecycleCEA.run defaultLifecycleParams).survival_baseline 0 = 1 ∧
    (LifecycleCEA.run defaultLifecycleParams).survival_intervention 0 = 1 ∧
    (∀ t, (LifecycleCEA.run defaultLifecycleParams).survival_baseline (t + 1) ≤
      (LifecycleCEA.run defaultLifecycleParams).survival_baseline t) ∧
    (∀ t, (LifecycleCEA.run defaultLifecycleParams).survival_intervention (t + 1) ≤
      (LifecycleCEA.run defaultLifecycleParams).survival_intervention t) ∧
    (∀ t, 0 ≤ (LifecycleCEA.run defaultLifecycleParams).survival_baseline t ∧
      (LifecycleCEA.run defaultLifecycleParams).survival_baseline t ≤ 1) ∧
    (∀ t, 0 ≤ (LifecycleCEA.run defaultLifecycleParams).survival_intervention t ∧
      (LifecycleCEA.run defaultLifecycleParams).survival_intervention t ≤ 1) :=
  c10_survival_invariants defaultLifecycleParams
    (by norm_num [defaultLifecycleParams]) (by norm_num [defaultLifecycleParams])
    (by norm_num [defaultLifecycleParams]) (by norm_num [defaultLifecycleParams])
    (by norm_num [defaultLifecycleParams])

/-- C5 counterexample. With the confounding adjustment set to 0 the
intervention has no effect at all, so two parameter sets differing only in
the hazard ratio (0.5 versus 0.7, both in (0,1)) yield the same (zero)
life-years gained, refuting the claim that the lower hazard ratio yields
strictly greater life-years gained for every such pair. -/
theorem c5_monotonicity_counterexample :
    ¬ (LifecycleCEA.ly_gained
        { hazard_ratio := 0.7, confounding_adjustment := 0 } <
      LifecycleCEA.ly_gained
        { hazard_ratio := 0.5, confounding_adjustment := 0 }) := by
  have e1 : LifecycleCEA.effective_hr
      { hazard_ratio := 0.5, confounding_adjustment := 0 } = 1 := by
    unfold LifecycleCEA.effective_hr
    simp
  have e2 : LifecycleCEA.effective_hr
      { hazard_ratio := 0.7, confounding_adjustment := 0 } = 1 := by
    unfold LifecycleCEA.effective_hr
    simp
  obtain ⟨g1, -⟩ := lifecycle_gains_zero _ e1
  obtain ⟨g2, -⟩ := lifecycle_gains_zero _ e2
  rw [g1, g2]
  exact lt_irrefl 0

/-- C5 amended: holding all other fields fixed, with a strictly positive
confounding adjustment at most 1, a strictly positive nut adjustment and at
least two modelled years (start_age below max_age), lowering the hazard
ratio within (0, 1) strictly increases the life-years gained computed by
`LifecycleCEA.run`. -/
theorem c5_monotonicity_amended (p : LifecycleParams) (h1 h2 : ℝ)
    (hh1 : 0 < h1) (h12 : h1 < h2) (hh2 : h2 < 1)
    (hc0 : 0 < p.confounding_adjustment) (hc1 : p.confounding_adjustment ≤ 1)
    (hna : 0 < p.nut_adjustment) (hsm : p.start_age < p.max_age) :
    LifecycleCEA.ly_gained { p with hazard_ratio := h2 } <
      LifecycleCEA.ly_gained { p with hazard_ratio := h1 } := by
  have he1 : 0 < LifecycleCEA.effective_hr { p with hazard_ratio := h1 } ∧
      LifecycleCEA.effective_hr { p with hazard_ratio := h1 } < 1 :=
    eff_bounds h1 p.nut_adjustment p.confounding_adjustment hh1 (h12.trans hh2)
      hna hc0 hc1
  have he2 : 0 < LifecycleCEA.effective_hr { p with hazard_ratio := h2 } ∧
      LifecycleCEA.effective_hr { p with hazard_ratio := h2 } < 1 :=
    eff_bounds h2 p.nut_adjustment p.confounding_adjustment (hh1.trans h12) hh2
      hna hc0 hc1
  have he12 : LifecycleCEA.effective_hr { p with hazard_ratio := h1 } <
      LifecycleCEA.effective_hr { p with hazard_ratio := h2 } :=
    eff_strict_mono h1 h2 p.nut_adjustment p.confounding_adjustment hh1 h12 hna hc0
  have hb0 : ∀ k, 0 < LifecycleCEA.mortality_baseline { p with hazard_ratio := h1 } k :=
    fun k => interpolate_mortality_pos _
  have hb1 : ∀ k, LifecycleCEA.mortality_baseline { p with hazard_ratio := h1 } k ≤ 1 :=
    fun k => interpolate_mortality_le_one _
  have hm12 : ∀ k, LifecycleCEA.mortality_intervention { p with hazard_ratio := h1 } k <
      LifecycleCEA.mortality_intervention { p with hazard_ratio := h2 } k :=
    fun k => mul_lt_mul_of_pos_left he12 (hb0 k)
  have hm2lt1 : ∀ k,
      LifecycleCEA.mortality_intervention { p with hazard_ratio := h2 } k < 1 :=
    fun k => lt_of_le_of_lt (mul_le_of_le_one_left he2.1.le (hb1 k)) he2.2
  have hn2 : 1 < LifecycleCEA.n_years { p with hazard_ratio := h1 } := by
    show 1 < (p.max_age + 1 - p.start_age).toNat
    omega
  have hint : LifecycleCEA.ly_intervention { p with hazard_ratio := h2 } <
      LifecycleCEA.ly_intervention { p with hazard_ratio := h1 } := by
    unfold LifecycleCEA.ly_intervention
    apply Finset.sum_lt_sum
    · intro t _
      exact survivalFrom_le_survivalFrom _ _ (fun k => (hm12 k).le)
        (fun k => (hm2lt1 k).le) t
    · exact ⟨1, Finset.mem_range.mpr hn2,
        survivalFrom_lt_survivalFrom _ _ hm12 hm2lt1 1 one_pos⟩
  have hbase : LifecycleCEA.ly_baseline { p with hazard_ratio := h2 } =
      LifecycleCEA.ly_baseline { p with hazard_ratio := h1 } := rfl
  unfold LifecycleCEA.ly_gained
  linarith [hint, hbase.le, hbase.ge]

/-- C5 witness: the amended theorem applied to the default parameters with
hazard ratios 0.5 and 0.7. -/
theorem c5_monotonicity_witness :
    LifecycleCEA.ly_gained { defaultLifecycleParams with hazard_ratio := 0.7 } <
      LifecycleCEA.ly_gained { defaultLifecycleParams with hazard_ratio := 0.5 } :=
  c5_monotonicity_amended defaultLifecycleParams 0.5 0.7 (by norm_num) (by norm_num)
    (by norm_num) (by norm_num [defaultLifecycleParams])
    (by norm_num [defaultLifecycleParams]) (by norm_num [defaultLifecycleParams])
    (by norm_num [defaultLifecycleParams])

/-- C8 counterexample. The materialized mortality curve is not
non-decreasing for every start age in range: starting at age 0, the table
value at age 0 (0.0053) exceeds the value at age 1 (0.00038), so the curve
decreases between its first two entries. -/
theorem c8_mortality_monotone_counterexample :
    ¬ List.Chain' (· ≤ ·) (get_mortality_curve 0 1) := by
  have hcurve : get_mortality_curve 0 1 =
      [interpolate_mortality 0, interpolate_mortality 1] := by
    unfold get_mortality_curve
    rw [show ((1 : ℤ) + 1 - 0).toNat = 2 from by decide,
      show List.range 2 = [0, 1] from by decide]
    simp
  have h0 : interpolate_mortality 0 = US_MORTALITY_RATES 0 := by
    unfold interpolate_mortality
    rw [if_pos le_rfl]
  have h1 : interpolate_mortality 1 = US_MORTALITY_RATES 1 :=
    interp_at_anchor 1 one_pos (by norm_num) (by unfold mortalityAnchorLo; omega)
  rw [hcurve]
  intro hchain
  have := (List.chain'_cons.mp hchain).1
  rw [h0, h1] at this
  norm_num [US_MORTALITY_RATES] at this

/-- C8 amended: for every start age of at least 10 and every max age, the
materialized mortality curve is monotonically non-decreasing (each entry is
at least the previous one); the original claim fails below age 10 because
the life-table values decrease over ages 0 to 10. -/
theorem c8_mortality_monotone_amended (s m : ℤ) (hs : 10 ≤ s) :
    List.Chain' (· ≤ ·) (get_mortality_curve s m) := by
  unfold get_mortality_curve
  rw [List.chain'_map]
  rcases Nat.eq_zero_or_pos (m + 1 - s).toNat with h0 | hpos
  · rw [h0, List.range_zero]
    exact List.chain'_nil
  · obtain ⟨n, hn⟩ := Nat.exists_eq_succ_of_ne_zero (Nat.pos_iff_ne_zero.mp hpos)
    rw [hn]
    refine (List.chain'_range_succ _ n).mpr ?_
    intro i hi
    have hstep := interpolate_mortality_step (s + i) (by omega)
    have hcast : s + ((i + 1 : ℕ) : ℤ) = (s + i) + 1 := by push_cast; ring
    show interpolate_mortality (s + i) ≤ interpolate_mortality (s + ((i + 1 : ℕ) : ℤ))
    rw [hcast]
    exact hstep

/-- C8 witness: the amended theorem at the default age range 40 to 110. -/
theorem c8_mortality_monotone_witness :
    List.Chain' (· ≤ ·) (get_mortality_curve 40 110) :=
  c8_mortality_monotone_amended 40 110 (by norm_num)

/-- C1: for every valid pathway parameter set (protective relative risks in
(0, 1), positive nut adjustment, confounding adjustment in (0, 1], at least
two modelled years and a discount rate above -1), the three per-cause
contribution fractions reported by `PathwayLifecycleCEA.run` — each weighted
by discounted life-years gained per age — sum to 1 within 1e-2 (the sum is
exactly 1). -/
theorem c1_pathway_contributions_sum_to_one (q : PathwayParams)
    (hrc : 0 < q.rr_cvd) (hrc1 : q.rr_cvd < 1)
    (hrk : 0 < q.rr_cancer) (hrk1 : q.rr_cancer < 1)
    (hro : 0 < q.rr_other) (hro1 : q.rr_other < 1)
    (hna : 0 < q.nut_adjustment)
    (hc0 : 0 < q.confounding_adjustment) (hc1 : q.confounding_adjustment ≤ 1)
    (hsm : q.start_age < q.max_age) (hr : -1 < q.discount_rate) :
    |(PathwayLifecycleCEA.run q).cvd_contribution +
      (PathwayLifecycleCEA.run q).cancer_contribution +
      (PathwayLifecycleCEA.run q).other_contribution - 1| ≤ 1e-2 := by
  have he_c : 0 < PathwayLifecycleCEA.rr_cvd_eff q ∧
      PathwayLifecycleCEA.rr_cvd_eff q < 1 :=
    eff_bounds q.rr_cvd q.nut_adjustment q.confounding_adjustment hrc hrc1 hna hc0 hc1
  have he_k : 0 < PathwayLifecycleCEA.rr_cancer_eff q ∧
      PathwayLifecycleCEA.rr_cancer_eff q < 1 :=
    eff_bounds q.rr_cancer q.nut_adjustment q.confounding_adjustment hrk hrk1 hna hc0 hc1
  have he_o : 0 < PathwayLifecycleCEA.rr_other_eff q ∧
      PathwayLifecycleCEA.rr_other_eff q < 1 :=
    eff_bounds q.rr_other q.nut_adjustment q.confounding_adjustment hro hro1 hna hc0 hc1
  have htr : ∀ t, 0 < PathwayLifecycleCEA.total_reduction q t := by
    intro t
    obtain ⟨hf1, hf2, hf3, -⟩ := cause_good (q.start_age + t)
    unfold PathwayLifecycleCEA.total_reduction
    nlinarith [mul_pos hf1 (by linarith [he_c.2] :
        (0 : ℝ) < 1 - PathwayLifecycleCEA.rr_cvd_eff q),
      mul_nonneg hf2 (by linarith [he_k.2] :
        (0 : ℝ) ≤ 1 - PathwayLifecycleCEA.rr_cancer_eff q),
      mul_nonneg hf3 (by linarith [he_o.2] :
        (0 : ℝ) ≤ 1 - PathwayLifecycleCEA.rr_other_eff q)]
  have hcsum : ∀ t, PathwayLifecycleCEA.cvd_contrib q t +
      PathwayLifecycleCEA.cancer_contrib q t +
      PathwayLifecycleCEA.other_contrib q t = 1 := by
    intro t
    unfold PathwayLifecycleCEA.cvd_contrib PathwayLifecycleCEA.cancer_contrib
      PathwayLifecycleCEA.other_contrib
    rw [if_pos (htr t), if_pos (htr t), if_pos (htr t), div_add_div_same,
      div_add_div_same]
    exact div_self (ne_of_gt (htr t))
  have hw : ∀ t, 0 < PathwayLifecycleCEA.weighted_rr q t ∧
      PathwayLifecycleCEA.weighted_rr q t < 1 := by
    intro t
    obtain ⟨hf1, hf2, hf3, hfs⟩ := cause_good (q.start_age + t)
    unfold PathwayLifecycleCEA.weighted_rr get_weighted_rr
    constructor
    · nlinarith [mul_pos hf1 he_c.1, mul_nonneg hf2 he_k.1.le,
        mul_nonneg hf3 he_o.1.le]
    · nlinarith [mul_lt_mul_of_pos_left he_c.2 hf1,
        mul_le_mul_of_nonneg_left he_k.2.le hf2,
        mul_le_mul_of_nonneg_left he_o.2.le hf3]
  have hmb0 : ∀ k, 0 < PathwayLifecycleCEA.mortality_baseline q k :=
    fun k => interpolate_mortality_pos _
  have hmb1 : ∀ k, PathwayLifecycleCEA.mortality_baseline q k ≤ 1 :=
    fun k => interpolate_mortality_le_one _
  have hmi : ∀ k, PathwayLifecycleCEA.mortality_intervention q k <
      PathwayLifecycleCEA.mortality_baseline q k := by
    intro k
    have h := mul_lt_mul_of_pos_left (hw k).2 (hmb0 k)
    rw [mul_one] at h
    exact h
  have hg0 : ∀ t, 0 ≤ PathwayLifecycleCEA.ly_gained_by_age q t := by
    intro t
    have h := survivalFrom_le_survivalFrom (PathwayLifecycleCEA.mortality_baseline q)
      (PathwayLifecycleCEA.mortality_intervention q) (fun k => (hmi k).le) hmb1 t
    show 0 ≤ PathwayLifecycleCEA.survival_intervention q t -
      PathwayLifecycleCEA.survival_baseline q t
    have hb : PathwayLifecycleCEA.survival_baseline q t =
      survivalFrom (PathwayLifecycleCEA.mortality_baseline q) t := rfl
    have hi : PathwayLifecycleCEA.survival_intervention q t =
      survivalFrom (PathwayLifecycleCEA.mortality_intervention q) t := rfl
    rw [hb, hi]
    linarith
  have hd : ∀ t, 0 < PathwayLifecycleCEA.discount_factor q t := by
    intro t
    have h1r : (0 : ℝ) < 1 + q.discount_rate := by linarith
    exact div_pos one_pos (pow_pos h1r t)
  have hg1 : 0 < PathwayLifecycleCEA.ly_gained_by_age q 1 := by
    show 0 < PathwayLifecycleCEA.survival_intervention q 1 -
      PathwayLifecycleCEA.survival_baseline q 1
    have hb : PathwayLifecycleCEA.survival_baseline q 1 =
        1 * (1 - PathwayLifecycleCEA.mortality_baseline q 0) := by
      show survivalFrom (PathwayLifecycleCEA.mortality_baseline q) 1 = _
      rw [survivalFrom_succ, survivalFrom_zero]
    have hi : PathwayLifecycleCEA.survival_intervention q 1 =
        1 * (1 - PathwayLifecycleCEA.mortality_intervention q 0) := by
      show survivalFrom (PathwayLifecycleCEA.mortality_intervention q) 1 = _
      rw [survivalFrom_succ, survivalFrom_zero]
    rw [hb, hi]
    have := hmi 0
    nlinarith
  have hD : 0 < PathwayLifecycleCEA.ly_gained_disc q := by
    unfold PathwayLifecycleCEA.ly_gained_disc
    apply Finset.sum_pos'
    · intro t _
      exact mul_nonneg (hg0 t) (hd t).le
    · refine ⟨1, Finset.mem_range.mpr ?_, mul_pos hg1 (hd 1)⟩
      show 1 < (q.max_age + 1 - q.start_age).toNat
      omega
  have hsum : PathwayLifecycleCEA.ly_cvd_disc q + PathwayLifecycleCEA.ly_cancer_disc q +
      PathwayLifecycleCEA.ly_other_disc q = PathwayLifecycleCEA.ly_gained_disc q := by
    unfold PathwayLifecycleCEA.ly_cvd_disc PathwayLifecycleCEA.ly_cancer_disc
      PathwayLifecycleCEA.ly_other_disc PathwayLifecycleCEA.ly_gained_disc
    rw [← Finset.sum_add_distrib, ← Finset.sum_add_distrib]
    refine Finset.sum_congr rfl fun t _ => ?_
    linear_combination
      (PathwayLifecycleCEA.ly_gained_by_age q t *
        PathwayLifecycleCEA.discount_factor q t) * hcsum t
  show |PathwayLifecycleCEA.cvd_contribution q + PathwayLifecycleCEA.cancer_contribution q +
    PathwayLifecycleCEA.other_contribution q - 1| ≤ 1e-2
  unfold PathwayLifecycleCEA.cvd_contribution PathwayLifecycleCEA.cancer_contribution
    PathwayLifecycleCEA.other_contribution
  rw [if_pos hD, if_pos hD, if_pos hD, div_add_div_same, div_add_div_same, hsum,
    div_self (ne_of_gt hD)]
  norm_num

/-- C1 witness: the theorem applied to the default pathway parameters. -/
theorem c1_pathway_contributions_sum_to_one_witness :
    |(PathwayLifecycleCEA.run defaultPathwayParams).cvd_contribution +
      (PathwayLifecycleCEA.run defaultPathwayParams).cancer_contribution +
      (PathwayLifecycleCEA.run defaultPathwayParams).other_contribution - 1| ≤ 1e-2 :=
  c1_pathway_contributions_sum_to_one defaultPathwayParams
    (by norm_num [defaultPathwayParams]) (by norm_num [defaultPathwayParams])
    (by norm_num [defaultPathwayParams]) (by norm_num [defaultPathwayParams])
    (by norm_num [defaultPathwayParams]) (by norm_num [defaultPathwayParams])
    (by norm_num [defaultPathwayParams]) (by norm_num [defaultPathwayParams])
    (by norm_num [defaultPathwayParams]) (by norm_num [defaultPathwayParams])
    (by norm_num [defaultPathwayParams])

end Whatnut
